import Mathlib

/-!
Shallow embedding of the carbon-savings evaluation pipeline of the
GreenSKU-Model repository (notebooks/carbon_savings.ipynb).

Floating-point columns are modelled as rationals; the one place where the
source can produce a non-finite float (pandas division by zero in the
savings percentage) is modelled by an explicit extended-value type PFloat
mirroring IEEE/pandas semantics (x/0 is +-infinity for x nonzero, 0/0 is
NaN, with no exception raised).  The per-server quantities produced by the
ServerCarbon and ServerMaintenance models (per-server carbon, AFRs, vcore
counts, rack-level operational share) enter the notebook formulas as
opaque scalar inputs, so they are universally quantified parameters here.
-/

/-- Extended float values as produced by pandas column arithmetic:
a finite value, NaN, or a signed infinity. -/
inductive PFloat where
  | num (q : ℚ)
  | nan
  | pinf
  | ninf
deriving DecidableEq, Repr

/-- Division of finite pandas floats: pandas (numpy) float division does not
raise on a zero divisor; it yields NaN for 0/0 and a signed infinity for
x/0 with x nonzero. -/
def pdDiv (a b : ℚ) : PFloat :=
  if b = 0 then (if a = 0 then .nan else if 0 < a then .pinf else .ninf)
  else .num (a / b)

/-- Scalar inputs to process_csv that come from the ServerCarbon and
ServerMaintenance models plus the buffer fraction argument:
og_server_carbon = og_sc.get_per_server_carbon(),
new_server_carbon = new_sc.get_per_server_carbon(),
og_AFR = og_maintenance.get_AFRs(), new_AFR = new_maintenance.get_AFRs(),
og_vcores = og_sc.get_vcores(), new_vcores = new_sc.get_vcores(),
buffer = the growth-buffer fraction (default 0.1). -/
structure ClusterParams where
  og_server_carbon : ℚ
  new_server_carbon : ℚ
  og_AFR : ℚ
  new_AFR : ℚ
  og_vcores : ℚ
  new_vcores : ℚ
  buffer : ℚ
deriving DecidableEq, Repr

/-- One row of the cluster-level csv (cluster_data.csv): the original
cluster size and the new cluster baseline/GreenSKU split.  The source
casts OriginalClusterSize with astype(int); the data model declares all
three counts as non-negative integers. -/
structure ClusterRow where
  OriginalClusterSize : ℕ
  NewClusterSize_Baseline : ℕ
  NewClusterSize_GreenSKU : ℕ
deriving DecidableEq, Repr

/-- og_maintenance_overhead = 1 + og_maintenance.get_AFRs(). -/
def og_maintenance_overhead (P : ClusterParams) : ℚ := 1 + P.og_AFR

/-- new_maintenance_overhead = 1 + new_maintenance.get_AFRs(). -/
def new_maintenance_overhead (P : ClusterParams) : ℚ := 1 + P.new_AFR

/-- df[num_buffer] = df[OriginalClusterSize] * buffer. -/
def num_buffer (P : ClusterParams) (r : ClusterRow) : ℚ :=
  (r.OriginalClusterSize : ℚ) * P.buffer

/-- df[num_og_buffer] = df[num_buffer].apply(math.ceil). -/
def num_og_buffer (P : ClusterParams) (r : ClusterRow) : ℤ :=
  ⌈num_buffer P r⌉

/-- df[start_og_carbon] = (OriginalClusterSize + num_og_buffer) *
og_server_carbon * og_maintenance_overhead. -/
def start_og_carbon (P : ClusterParams) (r : ClusterRow) : ℚ :=
  ((r.OriginalClusterSize : ℚ) + (num_og_buffer P r : ℚ)) *
    P.og_server_carbon * og_maintenance_overhead P

/-- df[total_num_buffer] = ceil((NewClusterSize_Baseline * og_vcores +
NewClusterSize_GreenSKU * new_vcores) * buffer / og_vcores). -/
def total_num_buffer (P : ClusterParams) (r : ClusterRow) : ℤ :=
  ⌈((r.NewClusterSize_Baseline : ℚ) * P.og_vcores +
      (r.NewClusterSize_GreenSKU : ℚ) * P.new_vcores) * P.buffer / P.og_vcores⌉

/-- df[total_carbon] = (NewClusterSize_Baseline + total_num_buffer) *
og_server_carbon * og_maintenance_overhead + NewClusterSize_GreenSKU *
new_server_carbon * new_maintenance_overhead. -/
def total_carbon (P : ClusterParams) (r : ClusterRow) : ℚ :=
  ((r.NewClusterSize_Baseline : ℚ) + (total_num_buffer P r : ℚ)) *
    P.og_server_carbon * og_maintenance_overhead P +
  (r.NewClusterSize_GreenSKU : ℚ) * P.new_server_carbon *
    new_maintenance_overhead P

/-- df[perc_saved_carbon] = (start_og_carbon - total_carbon) * 100 /
start_og_carbon, with pandas division semantics (no exception on a zero
divisor). -/
def perc_saved_carbon (P : ClusterParams) (r : ClusterRow) : PFloat :=
  pdDiv ((start_og_carbon P r - total_carbon P r) * 100) (start_og_carbon P r)

/-- Finite value of the savings percentage of a row, used by the rollups;
it agrees with perc_saved_carbon whenever the row baseline total is
nonzero. -/
def percQ (P : ClusterParams) (r : ClusterRow) : ℚ :=
  (start_og_carbon P r - total_carbon P r) * 100 / start_og_carbon P r

/-- Arithmetic mean of a list of finite values, as np.mean / Series.mean
computes it on NaN-free data. -/
def listMean (xs : List ℚ) : ℚ := xs.sum / xs.length

/-- np.average(xs, weights=ws) on finite data: sum of pairwise products
divided by the sum of the weights. -/
def npAverage (xs ws : List ℚ) : ℚ :=
  ((xs.zip ws).map (fun p => p.1 * p.2)).sum / ws.sum

/-- average_saved_carbon = df[perc_saved_carbon].mean(). -/
def average_saved_carbon (P : ClusterParams) (rows : List ClusterRow) : ℚ :=
  listMean (rows.map (percQ P))

/-- weighted_average_saved_carbon = np.average(df[perc_saved_carbon],
weights=df[OriginalClusterSize]). -/
def weighted_average_saved_carbon (P : ClusterParams) (rows : List ClusterRow) : ℚ :=
  npAverage (rows.map (percQ P)) (rows.map (fun r => (r.OriginalClusterSize : ℚ)))

/-- Savings value returned by process_csv: the weighted rollup when
weight_cluster is set, the unweighted mean otherwise. -/
def process_csv_savings (P : ClusterParams) (rows : List ClusterRow)
    (weight_cluster : Bool) : ℚ :=
  if weight_cluster then weighted_average_saved_carbon P rows
  else average_saved_carbon P rows

/-- One row of a datacenter csv (azure_dc_data.csv / google_dc_data.csv):
the columns consumed by calculate_average_dc_carbon_intensity. -/
structure DCRecord where
  renewablePct : ℚ
  avgRenewableIntensity : ℚ
  avgGridIntensity : ℚ
deriving DecidableEq, Repr

/-- dc_data[carbon_intensity] = (Renewable%/100) * AvgRenewableIntensity +
(1 - Renewable%/100) * AvgGridIntensity, then divided by 1000 to convert to
kgCO2e/kWh. -/
def record_carbon_intensity (r : DCRecord) : ℚ :=
  ((r.renewablePct / 100) * r.avgRenewableIntensity +
    (1 - r.renewablePct / 100) * r.avgGridIntensity) / 1000

/-- calculate_average_dc_carbon_intensity: np.mean of the per-record carbon
intensities. -/
def calculate_average_dc_carbon_intensity (rs : List DCRecord) : ℚ :=
  listMean (rs.map record_carbon_intensity)

/-- Failure raised by np.polyfit when the sample vectors are empty (numpy
raises a TypeError about an empty vector; no fit is returned). -/
inductive NpError where
  | emptyVector
deriving DecidableEq, Repr

/-- np.polyfit(x, y, 1): on an empty input numpy raises; otherwise it
returns (slope, intercept) of the least-squares line.  When the normal
equations are nonsingular this is the ordinary least-squares solution by
the Cramer rule; when they are singular (all x equal, e.g. a single sample)
numpy does not raise but returns the minimum-norm least-squares solution of
its column-scaled system, which for common x-value xb and n samples is
slope = (sum y) / (2 n xb), intercept = (sum y) / (2 n). -/
def polyfit_deg1 (pts : List (ℚ × ℚ)) : Except NpError (ℚ × ℚ) :=
  match pts with
  | [] => .error .emptyVector
  | (x0, _) :: _ =>
    let n : ℚ := pts.length
    let Sx := (pts.map Prod.fst).sum
    let Sy := (pts.map Prod.snd).sum
    let Sxx := (pts.map (fun p => p.1 * p.1)).sum
    let Sxy := (pts.map (fun p => p.1 * p.2)).sum
    let D := n * Sxx - Sx * Sx
    if D = 0 then .ok (Sy / (2 * n * x0), Sy / (2 * n))
    else .ok ((n * Sxy - Sx * Sy) / D, (Sxx * Sy - Sx * Sxy) / D)

/-- get_fan_power_model with its default arguments (the plotting branch is
pure I/O and the normalized flag is unused at every call site): fit a
first-degree polynomial to (server power, fan power) samples and return
(slope, intercept). -/
def get_fan_power_model (pts : List (ℚ × ℚ)) : Except NpError (ℚ × ℚ) :=
  polyfit_deg1 pts

/-- Python round(q) (as in int(round(x, 0))): round half to even. -/
def pyRound (q : ℚ) : ℤ :=
  let f := ⌊q⌋
  let r := q - (f : ℚ)
  if r < 1/2 then f
  else if 1/2 < r then f + 1
  else if Even f then f else f + 1

/-- operational_it = 0.868: fraction of DC operational carbon that is IT. -/
def operational_it : ℚ := 868/1000

/-- embodied_it = 0.948: fraction of DC embodied carbon that is IT. -/
def embodied_it : ℚ := 948/1000

/-- operational_compute_of_it = 0.779: fraction of IT operational carbon
that is compute. -/
def operational_compute_of_it : ℚ := 779/1000

/-- embodied_compute_of_it = 0.442: fraction of IT embodied carbon that is
compute. -/
def embodied_compute_of_it : ℚ := 442/1000

/-- compute_operational = operational_it * operational_compute_of_it. -/
def compute_operational : ℚ := operational_it * operational_compute_of_it

/-- compute_embodied = embodied_it * embodied_compute_of_it. -/
def compute_embodied : ℚ := embodied_it * embodied_compute_of_it

/-- baseline_operational_fraction = baseline_sc.get_rack_perc_operational()
/ 100, as a function of the rack-level operational percentage reported by
the baseline ServerCarbon model. -/
def baseline_operational_fraction (rack_perc_operational : ℚ) : ℚ :=
  rack_perc_operational / 100

/-- cluster_dc_fraction = compute_operational * baseline_operational_fraction
+ compute_embodied * (1 - baseline_operational_fraction). -/
def cluster_dc_fraction (rack_perc_operational : ℚ) : ℚ :=
  compute_operational * baseline_operational_fraction rack_perc_operational +
    compute_embodied * (1 - baseline_operational_fraction rack_perc_operational)

/-- cluster_savings = int(round(avg_carbon, 0)): the reported cluster-level
savings, rounded to a whole percent. -/
def cluster_savings_reported (avg_carbon : ℚ) : ℤ := pyRound avg_carbon

/-- dc_savings before its final rounding: cluster_savings *
cluster_dc_fraction, where cluster_savings is the already-rounded integer
cluster-level savings. -/
def dc_savings_raw (cluster_savings : ℤ) (rack_perc_operational : ℚ) : ℚ :=
  (cluster_savings : ℚ) * cluster_dc_fraction rack_perc_operational

/-- dc_savings = int(round(cluster_savings * cluster_dc_fraction, 0)): the
reported datacenter-level savings, as a function of the unrounded weighted
average cluster savings avg_carbon and the baseline rack operational
percentage. -/
def dc_savings_reported (avg_carbon : ℚ) (rack_perc_operational : ℚ) : ℤ :=
  pyRound (dc_savings_raw (cluster_savings_reported avg_carbon) rack_perc_operational)

/-- Per-core figures of one config as produced by ServerCarbon:
get_operational_per_sellable_core, get_embodied_per_sellable_core,
get_carbon_per_sellable_core. -/
structure StepInfo where
  operational : ℚ
  embodied : ℚ
  carbon : ℚ
deriving DecidableEq, Repr

/-- One entry of all_savings in calculate_steps: the operational and
embodied savings are ints (int(round(...)) or the literal 0); the carbon
entry is a float once a blend fraction overwrites it, so it is kept
rational. -/
structure StepSavings where
  operational : ℤ
  embodied : ℤ
  carbon : ℚ
deriving DecidableEq, Repr

/-- savings_dict[k] = int(round((ref_v - v) * 100 / ref_v, 0)) for one
metric, where ref_v is the reference config value.  The theorems only
use this at nonzero ref_v (Python float division raises on a zero
divisor). -/
def stepRefSavings (ref_v v : ℚ) : ℤ := pyRound ((ref_v - v) * 100 / ref_v)

/-- Savings dict of config i before the frac adjustment: all zeros for the
first config, otherwise int(round(...)) per metric relative to the first
config (to_first) or to the previous config. -/
def rawSavingsAt (infos : List StepInfo) (to_first : Bool) (i : ℕ) : StepSavings :=
  if i = 0 then ⟨0, 0, 0⟩
  else
    let ref := if to_first then infos.getD 0 ⟨0, 0, 0⟩ else infos.getD (i-1) ⟨0, 0, 0⟩
    let v := infos.getD i ⟨0, 0, 0⟩
    ⟨stepRefSavings ref.operational v.operational,
     stepRefSavings ref.embodied v.embodied,
     (stepRefSavings ref.carbon v.carbon : ℚ)⟩

/-- savings_dict[carbon] = savings_dict[operational] * frac +
savings_dict[embodied] * (1-frac) when frac is not None, applied after
the per-metric rounding. -/
def applyFrac (frac : Option ℚ) (s : StepSavings) : StepSavings :=
  match frac with
  | none => s
  | some f => ⟨s.operational, s.embodied,
      (s.operational : ℚ) * f + (s.embodied : ℚ) * (1 - f)⟩

/-- calculate_steps: the list all_savings produced by the loop (the
parallel all_info list is just the input figures, and the config-name
relabelling is presentation only). -/
def calculate_steps (infos : List StepInfo) (frac : Option ℚ)
    (to_first : Bool) : List StepSavings :=
  (List.range infos.length).map (fun i => applyFrac frac (rawSavingsAt infos to_first i))

/-- C2: for every cluster row with non-negative original size and a
non-negative buffer fraction, the baseline-only growth buffer is exactly
ceil(OriginalClusterSize * buffer): it is at least the fractional buffer,
less than one server above it, and non-negative; for size 95 and fraction
1/10 it is 10. -/
theorem buffer_og_is_ceil (P : ClusterParams) (r : ClusterRow)
    (hb : 0 ≤ P.buffer) :
    (num_og_buffer P r = ⌈(r.OriginalClusterSize : ℚ) * P.buffer⌉ ∧
      num_buffer P r ≤ (num_og_buffer P r : ℚ) ∧
      (num_og_buffer P r : ℚ) < num_buffer P r + 1 ∧
      0 ≤ num_og_buffer P r) ∧
    num_og_buffer ⟨1, 1, 0, 0, 1, 1, 1/10⟩ ⟨95, 0, 0⟩ = 10 := by
  refine ⟨⟨rfl, Int.le_ceil _, ?_, ?_⟩, ?_⟩
  · exact Int.ceil_lt_add_one _
  · exact Int.ceil_nonneg (mul_nonneg (Nat.cast_nonneg _) hb)
  · norm_num [num_og_buffer, num_buffer, Int.ceil_eq_iff]

/-- Witness for buffer_og_is_ceil at the concrete 95-server row with a
1/10 buffer fraction. -/
theorem buffer_og_is_ceil_witness :
    (0 : ℚ) ≤ 1/10 ∧ num_og_buffer ⟨1, 1, 0, 0, 1, 1, 1/10⟩ ⟨95, 0, 0⟩ = 10 :=
  ⟨by norm_num,
   (buffer_og_is_ceil ⟨1, 1, 0, 0, 1, 1, 1/10⟩ ⟨95, 0, 0⟩ (by norm_num)).2⟩

/-- C3: the mixed-cluster buffer is the ceiling of the buffer fraction
times the total core count normalized by the baseline core count, and the
mixed-cluster total charges the buffer at the baseline server carbon and
failure overhead while GreenSKU servers carry their own carbon and
overhead. -/
theorem mixed_buffer_and_total (P : ClusterParams) (r : ClusterRow) :
    total_num_buffer P r =
      ⌈P.buffer * ((r.NewClusterSize_Baseline : ℚ) * P.og_vcores +
          (r.NewClusterSize_GreenSKU : ℚ) * P.new_vcores) / P.og_vcores⌉ ∧
    total_carbon P r =
      ((r.NewClusterSize_Baseline : ℚ) + (total_num_buffer P r : ℚ)) *
          P.og_server_carbon * (1 + P.og_AFR) +
        (r.NewClusterSize_GreenSKU : ℚ) * P.new_server_carbon * (1 + P.new_AFR) := by
  constructor
  · unfold total_num_buffer
    congr 1
    ring
  · rfl

/-- C1 counterexample: on a row with OriginalClusterSize = 0 (and an empty
new cluster) the savings-percentage computation does not fail: pandas
evaluates 0 * 100 / 0 and silently produces NaN. -/
theorem zero_baseline_row_yields_nan :
    perc_saved_carbon ⟨1, 1, 0, 0, 1, 1, 1/10⟩ ⟨0, 0, 0⟩ = PFloat.nan := by
  norm_num [perc_saved_carbon, pdDiv, start_og_carbon, total_carbon,
    num_og_buffer, num_buffer, total_num_buffer, og_maintenance_overhead,
    new_maintenance_overhead]

/-- C1 amended: the per-row savings percentage equals
(baseline_total - mixed_total) * 100 / baseline_total whenever the
baseline total is nonzero; when the baseline total is zero the computation
does not raise any error but silently yields NaN or a signed infinity. -/
theorem perc_saved_formula_or_silent_nonfinite (P : ClusterParams) (r : ClusterRow) :
    (start_og_carbon P r ≠ 0 →
      perc_saved_carbon P r =
        PFloat.num ((start_og_carbon P r - total_carbon P r) * 100 /
          start_og_carbon P r)) ∧
    (start_og_carbon P r = 0 →
      perc_saved_carbon P r = PFloat.nan ∨ perc_saved_carbon P r = PFloat.pinf ∨
        perc_saved_carbon P r = PFloat.ninf) := by
  constructor
  · intro h
    simp [perc_saved_carbon, pdDiv, h]
  · intro h
    unfold perc_saved_carbon pdDiv
    rw [if_pos h]
    split_ifs <;> tauto

/-- Witness for perc_saved_formula_or_silent_nonfinite: a 1-server cluster
kept entirely on the baseline design has baseline total 1 and finite
savings 0. -/
theorem perc_saved_formula_witness :
    start_og_carbon ⟨1, 1, 0, 0, 1, 1, 0⟩ ⟨1, 1, 0⟩ ≠ 0 ∧
    perc_saved_carbon ⟨1, 1, 0, 0, 1, 1, 0⟩ ⟨1, 1, 0⟩ = PFloat.num 0 := by
  have h : start_og_carbon ⟨1, 1, 0, 0, 1, 1, 0⟩ ⟨1, 1, 0⟩ ≠ 0 := by
    norm_num [start_og_carbon, num_og_buffer, num_buffer, og_maintenance_overhead]
  refine ⟨h, ?_⟩
  rw [(perc_saved_formula_or_silent_nonfinite ⟨1, 1, 0, 0, 1, 1, 0⟩ ⟨1, 1, 0⟩).1 h]
  norm_num [start_og_carbon, total_carbon, num_og_buffer, num_buffer,
    total_num_buffer, og_maintenance_overhead, new_maintenance_overhead]

/-- C4: process_csv exposes exactly two rollups of the per-row savings
percentages, the np.average weighted by OriginalClusterSize when
weight_cluster is set and the unweighted mean otherwise; on savings 10 and
30 with weights 100 and 300 the weighted rollup is 25 and the unweighted
rollup is 20. -/
theorem two_rollups_weighted_and_unweighted :
    (∀ (P : ClusterParams) (rows : List ClusterRow),
      process_csv_savings P rows true =
        npAverage (rows.map (percQ P))
          (rows.map (fun r => (r.OriginalClusterSize : ℚ))) ∧
      process_csv_savings P rows false = listMean (rows.map (percQ P))) ∧
    npAverage [10, 30] [100, 300] = 25 ∧ listMean [10, 30] = 20 := by
  refine ⟨fun P rows => ⟨rfl, rfl⟩, ?_, ?_⟩
  · norm_num [npAverage, List.zip]
  · norm_num [listMean]

/-- C5: aggregating a cluster table against the baseline itself (equal
per-server carbon, AFR and core count, with each row new split summing
to its original size) gives zero savings on every row and zero for both
rollups, provided core counts are nonzero and every row baseline total
is nonzero. -/
theorem identity_aggregation_zero (P : ClusterParams) (rows : List ClusterRow)
    (hsc : P.new_server_carbon = P.og_server_carbon)
    (hafr : P.new_AFR = P.og_AFR)
    (hvc : P.new_vcores = P.og_vcores)
    (hvc0 : P.og_vcores ≠ 0)
    (hrows : rows ≠ [])
    (hsplit : ∀ r ∈ rows,
      r.NewClusterSize_Baseline + r.NewClusterSize_GreenSKU = r.OriginalClusterSize)
    (hbase : ∀ r ∈ rows, start_og_carbon P r ≠ 0) :
    (∀ r ∈ rows, percQ P r = 0) ∧
    average_saved_carbon P rows = 0 ∧
    weighted_average_saved_carbon P rows = 0 := by
  have key : ∀ r ∈ rows, total_carbon P r = start_og_carbon P r := by
    intro r hr
    have hbuf : total_num_buffer P r = num_og_buffer P r := by
      unfold total_num_buffer num_og_buffer num_buffer
      rw [hvc]
      congr 1
      have hdiv : ((r.NewClusterSize_Baseline : ℚ) * P.og_vcores +
          (r.NewClusterSize_GreenSKU : ℚ) * P.og_vcores) * P.buffer / P.og_vcores =
          ((r.NewClusterSize_Baseline : ℚ) + (r.NewClusterSize_GreenSKU : ℚ)) * P.buffer := by
        field_simp
        ring
      rw [hdiv]
      have hn : ((r.NewClusterSize_Baseline : ℚ) + (r.NewClusterSize_GreenSKU : ℚ)) =
          (r.OriginalClusterSize : ℚ) := by
        exact_mod_cast congrArg (Nat.cast : ℕ → ℚ) (hsplit r hr)
      rw [hn]
    unfold total_carbon start_og_carbon og_maintenance_overhead new_maintenance_overhead
    rw [hbuf, hsc, hafr]
    have hn : ((r.NewClusterSize_Baseline : ℚ) + (r.NewClusterSize_GreenSKU : ℚ)) =
        (r.OriginalClusterSize : ℚ) := by
      exact_mod_cast congrArg (Nat.cast : ℕ → ℚ) (hsplit r hr)
    linear_combination P.og_server_carbon * (1 + P.og_AFR) * hn
  have hzero : ∀ r ∈ rows, percQ P r = 0 := by
    intro r hr
    simp [percQ, key r hr]
  refine ⟨hzero, ?_, ?_⟩
  · have hsum : (rows.map (percQ P)).sum = 0 := by
      refine List.sum_eq_zero ?_
      intro x hx
      rcases List.mem_map.1 hx with ⟨r, hr, rfl⟩
      exact hzero r hr
    simp [average_saved_carbon, listMean, hsum]
  · have hsum : (((rows.map (percQ P)).zip
        (rows.map (fun r => (r.OriginalClusterSize : ℚ)))).map
          (fun p => p.1 * p.2)).sum = 0 := by
      refine List.sum_eq_zero ?_
      intro x hx
      rcases List.mem_map.1 hx with ⟨⟨a, b⟩, hp, rfl⟩
      have ha : a ∈ rows.map (percQ P) := (List.of_mem_zip hp).1
      rcases List.mem_map.1 ha with ⟨r, hr, rfl⟩
      rw [hzero r hr, zero_mul]
    simp [weighted_average_saved_carbon, npAverage, hsum]

/-- Witness for identity_aggregation_zero: a single 10-server cluster kept
as 6 baseline plus 4 baseline-identical servers with buffer fraction 1/10
has zero row savings and zero rollups. -/
theorem identity_aggregation_zero_witness :
    percQ ⟨1, 1, 0, 0, 1, 1, 1/10⟩ ⟨10, 6, 4⟩ = 0 ∧
    average_saved_carbon ⟨1, 1, 0, 0, 1, 1, 1/10⟩ [⟨10, 6, 4⟩] = 0 ∧
    weighted_average_saved_carbon ⟨1, 1, 0, 0, 1, 1, 1/10⟩ [⟨10, 6, 4⟩] = 0 := by
  have hc : ⌈((10 : ℕ) : ℚ) * (1/10)⌉ = 1 := by norm_num [Int.ceil_eq_iff]
  have h := identity_aggregation_zero ⟨1, 1, 0, 0, 1, 1, 1/10⟩ [⟨10, 6, 4⟩]
    rfl rfl rfl (by norm_num) (by simp)
    (by intro r hr; rw [List.mem_singleton] at hr; subst hr; rfl)
    (by
      intro r hr
      rw [List.mem_singleton] at hr
      subst hr
      norm_num [start_og_carbon, num_og_buffer, num_buffer,
        og_maintenance_overhead, Int.ceil_eq_iff])
  exact ⟨h.1 ⟨10, 6, 4⟩ (by simp), h.2.1, h.2.2⟩

/-- C6: the datacenter-level savings is the cluster-level savings times the
blended compute fraction, with the operational compute fraction
0.868 * 0.779 = 0.676172 weighted by the baseline server rack-level
operational share and the embodied compute fraction 0.948 * 0.442 =
0.419016 weighted by its complement. -/
theorem dc_savings_blend (cluster_savings : ℤ) (rack_perc : ℚ) :
    dc_savings_raw cluster_savings rack_perc =
      (cluster_savings : ℚ) *
        ((676172/1000000) * (rack_perc/100) +
          (419016/1000000) * (1 - rack_perc/100)) := by
  unfold dc_savings_raw cluster_dc_fraction compute_operational compute_embodied
    operational_it embodied_it operational_compute_of_it embodied_compute_of_it
    baseline_operational_fraction
  ring

/-- C7: the average datacenter carbon intensity is the unweighted mean over
all records of renewable_fraction * renewable_intensity +
(1 - renewable_fraction) * grid_intensity scaled to kgCO2e/kWh; on the
two-record example it evaluates to 1/8. -/
theorem avg_dc_carbon_intensity_is_mean (rs : List DCRecord) :
    calculate_average_dc_carbon_intensity rs =
      (rs.map (fun r => ((r.renewablePct/100) * r.avgRenewableIntensity +
        (1 - r.renewablePct/100) * r.avgGridIntensity) / 1000)).sum /
        (rs.length : ℚ) ∧
    calculate_average_dc_carbon_intensity
      [⟨50, 40, 400⟩, ⟨100, 30, 500⟩] = 1/8 := by
  constructor
  · unfold calculate_average_dc_carbon_intensity listMean
    have hm : rs.map record_carbon_intensity =
        rs.map (fun r => ((r.renewablePct/100) * r.avgRenewableIntensity +
          (1 - r.renewablePct/100) * r.avgGridIntensity) / 1000) :=
      List.map_congr_left (fun r _ => rfl)
    rw [hm]
    simp [List.length_map]
  · norm_num [calculate_average_dc_carbon_intensity, listMean, record_carbon_intensity]

/-- C8 counterexample: on a single-sample input the fan-power fit does not
fail: np.polyfit falls into its rank-deficient branch and returns the
numeric minimum-norm solution, here slope 1/2 and intercept 1/2. -/
theorem single_sample_polyfit_numeric :
    get_fan_power_model [((1 : ℚ), (1 : ℚ))] = Except.ok (1/2, 1/2) := by
  norm_num [get_fan_power_model, polyfit_deg1]

/-- C8 amended: the fan-power fit needs at least 2 distinct samples for a
well-posed regression, and an empty input does fail (numpy raises), but a
single sample does not raise an InputError: it silently returns the
degenerate numeric fit (y/(2x), y/2). -/
theorem fan_power_model_small_inputs (pts : List (ℚ × ℚ)) :
    (pts = [] → get_fan_power_model pts = .error .emptyVector) ∧
    (∀ x y, pts = [(x, y)] → x ≠ 0 →
      get_fan_power_model pts = .ok (y / (2 * x), y / 2)) := by
  constructor
  · intro h
    subst h
    rfl
  · intro x y hp _hx
    subst hp
    simp only [get_fan_power_model, polyfit_deg1, List.length_cons,
      List.length_nil, List.map_cons, List.map_nil, List.sum_cons,
      List.sum_nil, Nat.cast_one, add_zero]
    rw [if_pos (by ring)]
    norm_num

/-- Witness for fan_power_model_small_inputs: the empty input errors and
the single sample (2, 3) yields the numeric fit (3/4, 3/2). -/
theorem fan_power_model_small_inputs_witness :
    get_fan_power_model ([] : List (ℚ × ℚ)) = .error .emptyVector ∧
    get_fan_power_model [((2 : ℚ), (3 : ℚ))] = .ok (3/4, 3/2) := by
  refine ⟨(fan_power_model_small_inputs []).1 rfl, ?_⟩
  have h := (fan_power_model_small_inputs [((2 : ℚ), (3 : ℚ))]).2 2 3 rfl (by norm_num)
  rw [h]
  norm_num

/-- Evaluation rule for pyRound when the fractional part is below one
half. -/
theorem pyRound_low (q : ℚ) (z : ℤ) (h1 : ⌊q⌋ = z) (h2 : q - z < 1/2) :
    pyRound q = z := by
  simp only [pyRound, h1]
  rw [if_pos h2]

/-- Evaluation rule for pyRound when the fractional part is above one
half. -/
theorem pyRound_high (q : ℚ) (z : ℤ) (h1 : ⌊q⌋ = z) (h2 : 1/2 < q - z) :
    pyRound q = z + 1 := by
  simp only [pyRound, h1]
  rw [if_neg (by linarith), if_pos h2]

/-- Evaluation rule for pyRound at an exact half with an even floor. -/
theorem pyRound_tie (q : ℚ) (z : ℤ) (h1 : ⌊q⌋ = z) (h2 : q - z = 1/2)
    (h3 : Even z) : pyRound q = z := by
  simp only [pyRound, h1]
  rw [if_neg (by rw [h2]; norm_num), if_neg (by rw [h2]; norm_num), if_pos h3]

/-- C9: the reported datacenter savings is computed from the cluster
savings only after the latter is rounded to a whole percent, and the
product is itself rounded before being reported; concretely, an unrounded
weighted average of 14.5 with a full-operational blend yields a reported 9,
while blending the unrounded average first would round to 10. -/
theorem dc_rollup_sees_only_rounded (avg rack_perc : ℚ) :
    (cluster_savings_reported avg = pyRound avg ∧
      dc_savings_reported avg rack_perc =
        pyRound ((pyRound avg : ℚ) * cluster_dc_fraction rack_perc)) ∧
    dc_savings_reported (29/2) 100 = 9 ∧
    pyRound ((29/2 : ℚ) * cluster_dc_fraction 100) = 10 := by
  have hfrac : cluster_dc_fraction 100 = 676172/1000000 := by
    norm_num [cluster_dc_fraction, baseline_operational_fraction,
      compute_operational, compute_embodied, operational_it, embodied_it,
      operational_compute_of_it, embodied_compute_of_it]
  refine ⟨⟨rfl, rfl⟩, ?_, ?_⟩
  · have h14 : cluster_savings_reported (29/2 : ℚ) = 14 := by
      show pyRound (29/2 : ℚ) = 14
      exact pyRound_tie _ 14 (by norm_num [Int.floor_eq_iff]) (by norm_num) (by decide)
    unfold dc_savings_reported dc_savings_raw
    rw [h14, hfrac]
    exact pyRound_low _ 9 (by norm_num [Int.floor_eq_iff]) (by push_cast; norm_num)
  · rw [hfrac]
    have h := pyRound_high ((29/2 : ℚ) * (676172/1000000)) 9
      (by norm_num [Int.floor_eq_iff]) (by push_cast; norm_num)
    rw [h]
    norm_num

/-- Indexing lemma for calculate_steps: within bounds, entry i is the raw
savings dict of config i with the optional blend applied. -/
theorem calculate_steps_getD (infos : List StepInfo) (frac : Option ℚ)
    (tf : Bool) (i : ℕ) (h : i < infos.length) :
    (calculate_steps infos frac tf).getD i ⟨0, 0, 0⟩ =
      applyFrac frac (rawSavingsAt infos tf i) := by
  unfold calculate_steps
  rw [List.getD_eq_getElem?_getD, List.getElem?_map, List.getElem?_range h]
  rfl

/-- C10: on a non-empty config list the first savings dict is all zeros;
each later dict holds the rounded percentage savings of each metric
relative to the first config (to_first) or the previous config; and when a
blend fraction is supplied the carbon entry is recomputed from the
already-rounded integer operational and embodied savings, as the concrete
two-config run (savings 10.4 and 11.4, blend 1/2, carbon entry 21/2)
shows. -/
theorem calculate_steps_structure :
    (∀ (infos : List StepInfo) (frac : Option ℚ) (tf : Bool),
       infos ≠ [] → (calculate_steps infos frac tf).head? = some ⟨0, 0, 0⟩) ∧
    (∀ (infos : List StepInfo) (frac : Option ℚ) (tf : Bool) (i : ℕ),
       0 < i → i < infos.length →
       (calculate_steps infos frac tf).getD i ⟨0, 0, 0⟩ =
         applyFrac frac
           ⟨pyRound ((((if tf then infos.getD 0 ⟨0, 0, 0⟩
                  else infos.getD (i-1) ⟨0, 0, 0⟩).operational -
                (infos.getD i ⟨0, 0, 0⟩).operational) * 100) /
              (if tf then infos.getD 0 ⟨0, 0, 0⟩
                else infos.getD (i-1) ⟨0, 0, 0⟩).operational),
            pyRound ((((if tf then infos.getD 0 ⟨0, 0, 0⟩
                  else infos.getD (i-1) ⟨0, 0, 0⟩).embodied -
                (infos.getD i ⟨0, 0, 0⟩).embodied) * 100) /
              (if tf then infos.getD 0 ⟨0, 0, 0⟩
                else infos.getD (i-1) ⟨0, 0, 0⟩).embodied),
            (pyRound ((((if tf then infos.getD 0 ⟨0, 0, 0⟩
                  else infos.getD (i-1) ⟨0, 0, 0⟩).carbon -
                (infos.getD i ⟨0, 0, 0⟩).carbon) * 100) /
              (if tf then infos.getD 0 ⟨0, 0, 0⟩
                else infos.getD (i-1) ⟨0, 0, 0⟩).carbon) : ℚ)⟩) ∧
    (∀ (infos : List StepInfo) (f : ℚ) (tf : Bool) (i : ℕ),
       i < infos.length →
       ((calculate_steps infos (some f) tf).getD i ⟨0, 0, 0⟩).carbon =
         (((calculate_steps infos (some f) tf).getD i ⟨0, 0, 0⟩).operational : ℚ) * f +
           (((calculate_steps infos (some f) tf).getD i ⟨0, 0, 0⟩).embodied : ℚ) * (1 - f)) ∧
    calculate_steps [⟨100, 100, 100⟩, ⟨448/5, 443/5, 50⟩] (some (1/2)) true =
      [⟨0, 0, 0⟩, ⟨10, 11, 21/2⟩] := by
  refine ⟨?_, ?_, ?_, ?_⟩
  · intro infos frac tf hne
    have hlen : 0 < infos.length := List.length_pos.2 hne
    rw [calculate_steps, List.head?_eq_getElem?, List.getElem?_map,
      List.getElem?_range hlen]
    cases frac with
    | none => rfl
    | some f => simp [rawSavingsAt, applyFrac]
  · intro infos frac tf i hi hlen
    have h0 : ¬ (i = 0) := Nat.pos_iff_ne_zero.mp hi
    rw [calculate_steps_getD infos frac tf i hlen]
    unfold rawSavingsAt stepRefSavings
    rw [if_neg h0]
  · intro infos f tf i hlen
    rw [calculate_steps_getD infos (some f) tf i hlen]
    rfl
  · have e1 : pyRound ((52 : ℚ)/5) = 10 :=
      pyRound_low _ 10 (by norm_num [Int.floor_eq_iff]) (by norm_num)
    have e2 : pyRound ((57 : ℚ)/5) = 11 :=
      pyRound_low _ 11 (by norm_num [Int.floor_eq_iff]) (by norm_num)
    have e3 : pyRound ((50 : ℚ)) = 50 :=
      pyRound_low _ 50 (by norm_num [Int.floor_eq_iff]) (by norm_num)
    norm_num [calculate_steps, List.range_succ, rawSavingsAt, applyFrac,
      stepRefSavings, e1, e2, e3, StepSavings.mk.injEq]

/-- Witness for calculate_steps_structure at the concrete two-config run
with blend fraction 1/2. -/
theorem calculate_steps_structure_witness :
    (calculate_steps [⟨100, 100, 100⟩, ⟨448/5, 443/5, 50⟩] (some (1/2)) true).head? =
      some ⟨0, 0, 0⟩ ∧
    ((calculate_steps [⟨100, 100, 100⟩, ⟨448/5, 443/5, 50⟩] (some (1/2)) true).getD 1
        ⟨0, 0, 0⟩).carbon =
      (((calculate_steps [⟨100, 100, 100⟩, ⟨448/5, 443/5, 50⟩] (some (1/2)) true).getD 1
          ⟨0, 0, 0⟩).operational : ℚ) * (1/2) +
        (((calculate_steps [⟨100, 100, 100⟩, ⟨448/5, 443/5, 50⟩] (some (1/2)) true).getD 1
          ⟨0, 0, 0⟩).embodied : ℚ) * (1 - 1/2) :=
  ⟨calculate_steps_structure.1 _ _ _ (by simp),
   calculate_steps_structure.2.2.1 _ _ _ 1 (by simp)⟩
